import Mathlib

/-!
go-otel: the event-to-metric adapter of `metrics-only/event.go`

A shallow embedding of `MetricHandler` (an `event.Handler` that forwards metric
events to OpenTelemetry instruments), of the label-to-attribute conversion, and
of the bounded sampler goroutine of `main`.

Conventions of the embedding

* Go code that may panic returns an `Outcome`: `ok v` for a normal return and
  `panic p` for a panic carrying the payload `p`.
* Methods on `*MetricHandler` take the handler state and return the state after
  the call together with the outcome, so the state at the moment of a panic is
  still observable.
* `sync.Mutex` is not modelled: every call runs to completion on its own, which
  is what the lock guarantees for `getRecordFunc`.
* The packages `golang.org/x/exp/event`, `go.opentelemetry.io/otel/attribute` and
  `go.opentelemetry.io/otel/metric` are dependencies, not sources of this
  repository.  The few operations the handler uses are modelled by their
  documented behaviour and are marked "Dependency" below.  `metric.Meter` is an
  interface: it is modelled as a recording meter that logs the instruments
  created and the measurements made on it, with the implementation's error
  policy as a field.
-/

namespace GoOtel

/-! ## Dependency: `golang.org/x/exp/event` -/

/-- Dependency: an IEEE-754 binary64 value, kept as its 64-bit pattern
(`math.Float64bits`); the adapter never does arithmetic on it. -/
structure Float64 where
  bits : Nat
deriving DecidableEq, Repr

/-- Dependency: `event.MetricOptions`. `Unit` is `event.Unit`, a string type. -/
structure MetricOptions where
  Namespace : String
  Description : String
  Unit : String
deriving DecidableEq, Repr

/-- Dependency: the dynamic type of a value stored in the interface `event.Metric`.
`IntDistribution` is the fourth metric type of the package; `Other` stands for
any implementation of the interface defined elsewhere. -/
inductive MetricType where
  | Counter
  | FloatGauge
  | DurationDistribution
  | IntDistribution
  | Other (typeName : String)
deriving DecidableEq, Repr

/-- Dependency: a value of interface type `event.Metric`: its dynamic type, the
identity of the object it points to (`ptr`), and what its methods `Name()` and
`Options()` return.  Go compares interface values used as map keys by dynamic
type and pointer; here two metrics are the same key when the whole record is
equal, which agrees with Go as long as one pointer denotes one metric. -/
structure Metric where
  ptr : Nat
  dynType : MetricType
  name : String
  opts : MetricOptions
deriving DecidableEq, Repr

/-- Dependency: `Metric.Name()`. -/
def Metric.Name (em : Metric) : String := em.name

/-- Dependency: `Metric.Options()`. -/
def Metric.Options (em : Metric) : MetricOptions := em.opts

/-- Dependency: what an `event.Label` holds.  `none` is the label without a value
(`untyped == nil`); `metric` is an interface value whose dynamic type implements
`event.Metric`; `other` is any other interface value.  `int64` and `duration`
are 64-bit signed quantities (a duration counts nanoseconds). -/
inductive Value where
  | none
  | string (s : String)
  | bytes (b : List Nat)
  | int64 (i : Int)
  | uint64 (n : Nat)
  | float64 (f : Float64)
  | bool (b : Bool)
  | duration (d : Int)
  | metric (m : Metric)
  | other (typeName : String)
deriving DecidableEq, Repr

/-- Dependency: `event.Label`, a named value. -/
structure Label where
  Name : String
  value : Value
deriving DecidableEq, Repr

/-! ## Dependency: `go.opentelemetry.io/otel/attribute` -/

/-- Dependency: `attribute.Value` restricted to the four scalar types the adapter
produces; the constructor is the value's `Type()`. -/
inductive AttrValue where
  | BOOL (b : Bool)
  | INT64 (i : Int)
  | FLOAT64 (f : Float64)
  | STRING (s : String)
deriving DecidableEq, Repr

/-- Dependency: `attribute.KeyValue`. -/
structure KeyValue where
  Key : String
  Value : AttrValue
deriving DecidableEq, Repr

/-- Dependency: `attribute.String(k, v)`. -/
def attributeString (k : String) (v : String) : KeyValue := ⟨k, .STRING v⟩

/-- Dependency: `attribute.Int64(k, v)`. -/
def attributeInt64 (k : String) (v : Int) : KeyValue := ⟨k, .INT64 v⟩

/-- Dependency: `attribute.Float64(k, v)`. -/
def attributeFloat64 (k : String) (v : Float64) : KeyValue := ⟨k, .FLOAT64 v⟩

/-- Dependency: `attribute.Bool(k, v)`. -/
def attributeBool (k : String) (v : Bool) : KeyValue := ⟨k, .BOOL v⟩

/-! ## Panics -/

/-- The values the code panics with.  The first four and `cannotConvert` are the
panics written in `event.go`; `typeAssertion` is the run-time panic of the
single-result type assertion `mi.(event.Metric)`; `labelAccessor` is the panic
of a typed accessor of `event.Label` called on a label of another type. -/
inductive PanicValue where
  | noMetricKey
  | noMetricValue
  | unableToRecord (em : Metric)
  | meterError (err : String)
  | cannotConvert (l : Label)
  | typeAssertion (v : Value)
  | labelAccessor (method : String)
deriving DecidableEq, Repr

/-- The outcome of a call: a normal return or a panic. -/
inductive Outcome (α : Type) where
  | ok (a : α)
  | panic (p : PanicValue)
deriving DecidableEq, Repr

/-- The call returned normally. -/
def Outcome.returns {α : Type} : Outcome α → Bool
  | .ok _ => true
  | .panic _ => false

/-! ## Dependency: labels and events -/

/-- Dependency: `event.MetricKey = interfaceKey("metric")`, as a label name. -/
def MetricKey : String := "metric"

/-- Dependency: `event.MetricVal = "metricValue"`. -/
def MetricVal : String := "metricValue"

/-- Dependency: `Label.HasValue`. -/
def Label.HasValue (l : Label) : Bool :=
  match l.value with
  | .none => false
  | _ => true

/-- Dependency: `Label.IsString`. -/
def Label.IsString (l : Label) : Bool :=
  match l.value with
  | .string _ => true
  | _ => false

/-- Dependency: `Label.IsInt64`. -/
def Label.IsInt64 (l : Label) : Bool :=
  match l.value with
  | .int64 _ => true
  | _ => false

/-- Dependency: `Label.IsFloat64`. -/
def Label.IsFloat64 (l : Label) : Bool :=
  match l.value with
  | .float64 _ => true
  | _ => false

/-- Dependency: `Label.IsBool`. -/
def Label.IsBool (l : Label) : Bool :=
  match l.value with
  | .bool _ => true
  | _ => false

/-- Dependency: `Label.String()` on a string label (the only use in `event.go`
is guarded by `IsString`); on other labels the package renders the value as
text, which is not modelled. -/
def Label.String (l : Label) : String :=
  match l.value with
  | .string s => s
  | _ => ""

/-- Dependency: `Label.Int64()`, which panics unless `IsInt64`. -/
def Label.Int64 (l : Label) : Outcome Int :=
  match l.value with
  | .int64 i => .ok i
  | _ => .panic (.labelAccessor "Int64")

/-- Dependency: `Label.Float64()`, which panics unless `IsFloat64`. -/
def Label.Float64 (l : Label) : Outcome Float64 :=
  match l.value with
  | .float64 f => .ok f
  | _ => .panic (.labelAccessor "Float64")

/-- Dependency: `Label.Bool()`, which panics unless `IsBool`. -/
def Label.Bool (l : Label) : Outcome Bool :=
  match l.value with
  | .bool b => .ok b
  | _ => .panic (.labelAccessor "Bool")

/-- Dependency: `Label.Duration()`, which panics unless the label holds a
duration. -/
def Label.Duration (l : Label) : Outcome Int :=
  match l.value with
  | .duration d => .ok d
  | _ => .panic (.labelAccessor "Duration")

/-- Dependency: `time.Duration.Nanoseconds()`: a duration is its count of
nanoseconds. -/
def Nanoseconds (d : Int) : Int := d

/-- Dependency: `Label.Interface()`, the held value as an `interface{}`. -/
def Label.Interface (l : Label) : Value := l.value

/-- Dependency: `event.Kind`, an integer type. -/
abbrev Kind := Nat

/-- Dependency: `event.LogKind`. -/
def LogKind : Kind := 1

/-- Dependency: `event.MetricKind`. -/
def MetricKind : Kind := 2

/-- Dependency: the fields of `event.Event` the handler reads. -/
structure Event where
  Kind : Kind
  Labels : List Label
deriving DecidableEq, Repr

/-- Dependency: the loop of `Event.Find`, over the labels from the first to the
last. -/
def findFrom (name : String) : List Label → Label
  | [] => ⟨"", .none⟩
  | l :: rest => if l.Name = name then l else findFrom name rest

/-- Dependency: `Event.Find(name)`: the first label of that name, and the zero
label when there is none. -/
def Event.Find (e : Event) (name : String) : Label :=
  findFrom name e.Labels

/-- Dependency: the loop of `lookupValue`, which visits the labels from the last
to the first (the argument is the label list reversed): the label of that name
and true, or the zero label and false. -/
def lookupFrom (name : String) : List Label → Label × Bool
  | [] => (⟨"", .none⟩, false)
  | l :: rest => if l.Name = name then (l, true) else lookupFrom name rest

/-- Dependency: `lookupValue(name, labels)`. -/
def lookupValue (name : String) (labels : List Label) : Label × Bool :=
  lookupFrom name labels.reverse

/-- Dependency: `interfaceKey.Find(ev)`: when a label of that key exists, its
value as an `interface{}` (nil for a label without a value) and true; otherwise
nil and false. -/
def interfaceKeyFind (k : String) (e : Event) : Value × Bool :=
  match lookupValue k e.Labels with
  | (v, true) => (v.Interface, true)
  | (_, false) => (.none, false)

/-- Dependency: `context.Context`, opaque to the handler. -/
structure Context where
  id : Nat
deriving DecidableEq, Repr

/-! ## Dependency: `go.opentelemetry.io/otel/metric` as a recording meter -/

/-- The three instrument constructors of `metric.Meter` the handler calls. -/
inductive InstrumentKind where
  | Int64Counter
  | Float64UpDownCounter
  | Int64Histogram
deriving DecidableEq, Repr

/-- What an instrument is created with: the constructor, the name, and the
options `WithDescription` and `WithUnit`. -/
structure Instrument where
  kind : InstrumentKind
  name : String
  description : String
  unit : String
deriving DecidableEq, Repr

/-- A measured number: `int64` for counters and histograms, `float64` for
up-down counters. -/
inductive Number where
  | int (i : Int)
  | float (f : Float64)
deriving DecidableEq, Repr

/-- One `Add` or `Record` call on an instrument: the instrument (its position in
the meter's creation log), the number, and the attributes of
`metric.WithAttributes`. -/
structure Measurement where
  instrument : Nat
  value : Number
  attrs : List KeyValue
deriving DecidableEq, Repr

/-- A `metric.Meter`.  `reject` is the implementation's policy: given the
instruments created so far and the one requested, the error the constructor
returns, if any.  `instruments` logs the instruments created, in order, and
`measurements` logs the `Add` and `Record` calls, in order. -/
structure Meter where
  reject : List Instrument → Instrument → Option String
  instruments : List Instrument
  measurements : List Measurement

/-- An instrument constructor of the meter: an error by the meter's policy, or
the handle of the new instrument and the meter after creating it. -/
def Meter.newInstrument (mt : Meter) (i : Instrument) : Except String (Nat × Meter) :=
  match mt.reject mt.instruments i with
  | some err => .error err
  | none => .ok (mt.instruments.length, { mt with instruments := mt.instruments ++ [i] })

/-- Dependency: `Meter.Int64Counter(name, WithDescription(d), WithUnit(u))`. -/
def Meter.Int64Counter (mt : Meter) (name d u : String) : Except String (Nat × Meter) :=
  mt.newInstrument ⟨.Int64Counter, name, d, u⟩

/-- Dependency: `Meter.Float64UpDownCounter(name, WithDescription(d), WithUnit(u))`. -/
def Meter.Float64UpDownCounter (mt : Meter) (name d u : String) : Except String (Nat × Meter) :=
  mt.newInstrument ⟨.Float64UpDownCounter, name, d, u⟩

/-- Dependency: `Meter.Int64Histogram(name, WithDescription(d), WithUnit(u))`. -/
def Meter.Int64Histogram (mt : Meter) (name d u : String) : Except String (Nat × Meter) :=
  mt.newInstrument ⟨.Int64Histogram, name, d, u⟩

/-- Dependency: `Add` / `Record` on the instrument `c`: the call is logged. -/
def Meter.measure (mt : Meter) (c : Nat) (v : Number) (attrs : List KeyValue) : Meter :=
  { mt with measurements := mt.measurements ++ [⟨c, v, attrs⟩] }

/-- A meter on which nothing was created or measured, with the given policy. -/
def Meter.fresh (reject : List Instrument → Instrument → Option String) : Meter :=
  ⟨reject, [], []⟩

/-- The policy of a meter that never returns an error. -/
def acceptAll : List Instrument → Instrument → Option String := fun _ _ => Option.none

/-- The three closures `newRecordFunc` returns, each closing over the instrument
it created (`c`, `g`, `r` in the source).  Two record functions are the same
function when they are the same closure over the same instrument. -/
inductive recordFunc where
  | counterAdd (c : Nat)
  | gaugeAdd (g : Nat)
  | histogramRecord (r : Nat)
deriving DecidableEq, Repr

/-- The Go map `map[event.Metric]recordFunc` as an association list with at most
one entry per key; a stored `none` is a stored nil function. -/
abbrev RecordFuncs := List (Metric × Option recordFunc)

/-- The map read `f, ok := m[em]`: `none` when the key is absent, `some f` when
present (where `f` may be the nil function). -/
def RecordFuncs.get : RecordFuncs → Metric → Option (Option recordFunc)
  | [], _ => Option.none
  | (k, f) :: rest, em => if k = em then some f else RecordFuncs.get rest em

/-- The map write `m[em] = f`. -/
def RecordFuncs.set (m : RecordFuncs) (em : Metric) (f : Option recordFunc) : RecordFuncs :=
  (em, f) :: m.filter (fun p => p.1 ≠ em)

/-- The type `MetricHandler`; the mutex is not part of the state. -/
structure MetricHandler where
  meter : Meter
  recordFuncs : RecordFuncs

/-- The function `NewMetricHandler`. -/
def NewMetricHandler (m : Meter) : MetricHandler :=
  { meter := m, recordFuncs := [] }

/-- The function `labelToAttribute`. -/
def labelToAttribute (l : Label) : Outcome KeyValue :=
  if l.IsString then
    .ok (attributeString l.Name l.String)
  else if l.IsInt64 then
    match l.Int64 with
    | .ok i => .ok (attributeInt64 l.Name i)
    | .panic p => .panic p
  else if l.IsFloat64 then
    match l.Float64 with
    | .ok f => .ok (attributeFloat64 l.Name f)
    | .panic p => .panic p
  else if l.IsBool then
    match l.Bool with
    | .ok b => .ok (attributeBool l.Name b)
    | .panic p => .panic p
  else
    .panic (.cannotConvert l)

/-- The loop of `labelsToAttributes`, from the slice `attrs` built so far over
the labels still to visit. -/
def labelsToAttributesLoop (attrs : List KeyValue) : List Label → Outcome (List KeyValue)
  | [] => .ok attrs
  | l :: ls =>
    if l.Name = MetricKey ∨ l.Name = MetricVal then
      labelsToAttributesLoop attrs ls
    else
      match labelToAttribute l with
      | .panic p => .panic p
      | .ok a => labelsToAttributesLoop (attrs ++ [a]) ls

/-- The function `labelsToAttributes`. -/
def labelsToAttributes (ls : List Label) : Outcome (List KeyValue) :=
  labelsToAttributesLoop [] ls

/-- A call `rf(ctx, l, attrs)` of a record function on the meter.  Go evaluates
the arguments of `Add` / `Record` left to right: the value of the label, then
the attributes, then the call itself. -/
def recordFunc.call (rf : recordFunc) (mt : Meter) (_ctx : Context) (l : Label)
    (attrs : List Label) : Meter × Outcome Unit :=
  match rf with
  | .counterAdd c =>
    match l.Int64 with
    | .panic p => (mt, .panic p)
    | .ok v =>
      match labelsToAttributes attrs with
      | .panic p => (mt, .panic p)
      | .ok as => (mt.measure c (.int v) as, .ok ())
  | .gaugeAdd g =>
    match l.Float64 with
    | .panic p => (mt, .panic p)
    | .ok v =>
      match labelsToAttributes attrs with
      | .panic p => (mt, .panic p)
      | .ok as => (mt.measure g (.float v) as, .ok ())
  | .histogramRecord r =>
    match l.Duration with
    | .panic p => (mt, .panic p)
    | .ok d =>
      match labelsToAttributes attrs with
      | .panic p => (mt, .panic p)
      | .ok as => (mt.measure r (.int (Nanoseconds d)) as, .ok ())

/-- The method `MetricHandler.newRecordFunc`. -/
def MetricHandler.newRecordFunc (m : MetricHandler) (em : Metric) :
    MetricHandler × Outcome (Option recordFunc) :=
  let opts := em.Options
  let name := opts.Namespace ++ "_" ++ em.Name
  match em.dynType with
  | .Counter =>
    match m.meter.Int64Counter name opts.Description opts.Unit with
    | .error err => (m, .panic (.meterError err))
    | .ok (c, mt) => ({ m with meter := mt }, .ok (some (.counterAdd c)))
  | .FloatGauge =>
    match m.meter.Float64UpDownCounter name opts.Description opts.Unit with
    | .error err => (m, .panic (.meterError err))
    | .ok (g, mt) => ({ m with meter := mt }, .ok (some (.gaugeAdd g)))
  | .DurationDistribution =>
    match m.meter.Int64Histogram name opts.Description opts.Unit with
    | .error err => (m, .panic (.meterError err))
    | .ok (r, mt) => ({ m with meter := mt }, .ok (some (.histogramRecord r)))
  | _ => (m, .ok Option.none)

/-- The method `MetricHandler.getRecordFunc`. -/
def MetricHandler.getRecordFunc (m : MetricHandler) (em : Metric) :
    MetricHandler × Outcome (Option recordFunc) :=
  match m.recordFuncs.get em with
  | some f => (m, .ok f)
  | Option.none =>
    match m.newRecordFunc em with
    | (m1, .panic p) => (m1, .panic p)
    | (m1, .ok f) => ({ m1 with recordFuncs := m1.recordFuncs.set em f }, .ok f)

/-- The method `MetricHandler.Event`. -/
def MetricHandler.Event (m : MetricHandler) (ctx : Context) (e : Event) :
    MetricHandler × Outcome Context :=
  if e.Kind ≠ MetricKind then
    (m, .ok ctx)
  else
    match interfaceKeyFind MetricKey e with
    | (_, false) => (m, .panic .noMetricKey)
    | (mi, true) =>
      match mi with
      | .metric em =>
        let lval := e.Find MetricVal
        if !lval.HasValue then
          (m, .panic .noMetricValue)
        else
          match m.getRecordFunc em with
          | (m1, .panic p) => (m1, .panic p)
          | (m1, .ok Option.none) => (m1, .panic (.unableToRecord em))
          | (m1, .ok (some rf)) =>
            match rf.call m1.meter ctx lval e.Labels with
            | (mt, .panic p) => ({ m1 with meter := mt }, .panic p)
            | (mt, .ok _) => ({ m1 with meter := mt }, .ok ctx)
      | v => (m, .panic (.typeAssertion v))

/-- A sequence of events handled in order, each by `MetricHandler.Event`; the
run stops at the first panic. -/
def handleAll (m : MetricHandler) (ctx : Context) :
    List Event → MetricHandler × Outcome Context
  | [] => (m, .ok ctx)
  | e :: es =>
    match m.Event ctx e with
    | (m1, .panic p) => (m1, .panic p)
    | (m1, .ok ctx1) => handleAll m1 ctx1 es

/-! ## `metrics-only/event.go`: the sampler goroutine of `main` -/

/-- What the sampler goroutine has done: the values passed to `c.Record`, in
order, and whether the goroutine has returned. -/
structure Sampler where
  records : List Int
  exited : Bool
deriving DecidableEq, Repr

/-- The loop of the goroutine started in `main`, from the current `count`, as a
function of the number of timer ticks still to be delivered.  Each iteration
first tests `count > 3` and returns if so; otherwise it waits for a tick, and
when one is delivered calls `c.Record(ctx, 1023)` and increments `count`.  With
no tick left the goroutine is blocked in the `select`. -/
def samplerLoop (count : Int) : Nat → Sampler
  | 0 => if count > 3 then ⟨[], true⟩ else ⟨[], false⟩
  | ticks + 1 =>
    if count > 3 then
      ⟨[], true⟩
    else
      let rest := samplerLoop (count + 1) ticks
      ⟨1023 :: rest.records, rest.exited⟩

/-- The goroutine of `main`: `var count int` starts at zero. -/
def sampler (ticks : Nat) : Sampler := samplerLoop 0 ticks

/-! ## Specification-level definitions -/

/-- The label is one of the two internal bookkeeping labels. -/
def isBookkeeping (l : Label) : Bool :=
  decide (l.Name = MetricKey) || decide (l.Name = MetricVal)

/-- Each label of a list converted by `labelToAttribute`, in order; the first
conversion that panics is the panic of the whole. -/
def convertEach : List Label → Outcome (List KeyValue)
  | [] => .ok []
  | l :: ls =>
    match labelToAttribute l with
    | .panic p => .panic p
    | .ok a =>
      match convertEach ls with
      | .panic p => .panic p
      | .ok as => .ok (a :: as)

/-- The conversion the specification describes: drop the bookkeeping labels, then
convert each remaining label in order. -/
def labelsToAttributesSpec (ls : List Label) : Outcome (List KeyValue) :=
  convertEach (ls.filter (fun l => !isBookkeeping l))

/-- The metric type is one of the three `newRecordFunc` has a case for. -/
def MetricType.supported : MetricType → Bool
  | .Counter => true
  | .FloatGauge => true
  | .DurationDistribution => true
  | _ => false

/-- The instrument constructor `newRecordFunc` calls for a metric type. -/
def MetricType.instrumentKind : MetricType → Option InstrumentKind
  | .Counter => some .Int64Counter
  | .FloatGauge => some .Float64UpDownCounter
  | .DurationDistribution => some .Int64Histogram
  | _ => Option.none

/-- The closure `newRecordFunc` returns for an instrument of each kind. -/
def InstrumentKind.closure : InstrumentKind → Nat → recordFunc
  | .Int64Counter, c => .counterAdd c
  | .Float64UpDownCounter, g => .gaugeAdd g
  | .Int64Histogram, r => .histogramRecord r

/-- The counter of `main`, `event.NewCounter("hits", ...)`, with an explicit
namespace `app`. -/
def hitsCounter : Metric :=
  ⟨1, .Counter, "hits", ⟨"app", "Earth meteorite hits", ""⟩⟩

/-- A float gauge with the namespace and name of `hitsCounter`. -/
def hitsGauge : Metric :=
  ⟨2, .FloatGauge, "hits", ⟨"app", "Earth meteorite hits", ""⟩⟩

/-- A metric of a type `newRecordFunc` has no case for. -/
def hitsDistribution : Metric :=
  ⟨3, .IntDistribution, "hits", ⟨"app", "", ""⟩⟩

/-- A counter named `hits` whose options have the empty namespace. -/
def bareCounter : Metric :=
  ⟨4, .Counter, "hits", ⟨"", "Earth meteorite hits", ""⟩⟩

/-- The labels of the example of the attribute conversion: the metric key, the
metric value, `a: "x"` and `b: 5`. -/
def exampleLabels : List Label :=
  [⟨MetricVal, .int64 1⟩, ⟨MetricKey, .metric hitsCounter⟩, ⟨"a", .string "x"⟩, ⟨"b", .int64 5⟩]

/-- A counter event as `Counter.Record(ctx, v, labels...)` builds it: the value
label, the metric-key label, then the caller's labels. -/
def counterEvent (c : Metric) (v : Int) (labels : List Label) : Event :=
  ⟨MetricKind, [⟨MetricVal, .int64 v⟩, ⟨MetricKey, .metric c⟩] ++ labels⟩

/-- A gauge event as `FloatGauge.Record(ctx, v, labels...)` builds it. -/
def gaugeEvent (g : Metric) (v : Float64) (labels : List Label) : Event :=
  ⟨MetricKind, [⟨MetricVal, .float64 v⟩, ⟨MetricKey, .metric g⟩] ++ labels⟩

theorem labelToAttribute_key (l : Label) (a : KeyValue) (h : labelToAttribute l = .ok a) :
    a.Key = l.Name := by
  obtain ⟨n, v⟩ := l
  cases v <;>
    simp [labelToAttribute, Label.IsString, Label.IsInt64, Label.IsFloat64, Label.IsBool,
      Label.String, Label.Int64, Label.Float64, Label.Bool, attributeString, attributeInt64,
      attributeFloat64, attributeBool] at h <;>
    rw [← h]

theorem convertEach_keys (ls : List Label) (attrs : List KeyValue)
    (h : convertEach ls = .ok attrs) : attrs.map KeyValue.Key = ls.map Label.Name := by
  induction ls generalizing attrs with
  | nil =>
    simp [convertEach] at h
    subst h
    rfl
  | cons l ls ih =>
    unfold convertEach at h
    cases hl : labelToAttribute l with
    | panic p => simp [hl] at h
    | ok a =>
      cases hr : convertEach ls with
      | panic p => simp [hl, hr] at h
      | ok as =>
        simp [hl, hr] at h
        subst h
        simp [labelToAttribute_key l a hl, ih as hr]

theorem labelsToAttributesLoop_eq (ls : List Label) (attrs : List KeyValue) :
    labelsToAttributesLoop attrs ls =
      match labelsToAttributesSpec ls with
      | .ok as => .ok (attrs ++ as)
      | .panic p => .panic p := by
  induction ls generalizing attrs with
  | nil => simp [labelsToAttributesLoop, labelsToAttributesSpec, convertEach]
  | cons l ls ih =>
    unfold labelsToAttributesLoop
    by_cases hb : l.Name = MetricKey ∨ l.Name = MetricVal
    · have hb2 : isBookkeeping l = true := by
        simpa [isBookkeeping] using hb
      rw [if_pos hb, ih]
      simp [labelsToAttributesSpec, List.filter_cons, hb2]
    · have hb2 : isBookkeeping l = false := by
        simpa [isBookkeeping] using hb
      rw [if_neg hb]
      cases hl : labelToAttribute l with
      | panic p => simp [labelsToAttributesSpec, List.filter_cons, hb2, convertEach, hl]
      | ok a =>
        simp only [ih]
        simp only [labelsToAttributesSpec, List.filter_cons, hb2, convertEach, hl]
        cases convertEach (List.filter (fun l => !isBookkeeping l) ls) <;> simp

theorem labelsToAttributes_eq_spec (ls : List Label) :
    labelsToAttributes ls = labelsToAttributesSpec ls := by
  unfold labelsToAttributes
  rw [labelsToAttributesLoop_eq]
  cases labelsToAttributesSpec ls <;> simp

/-! ## Lemmas: the map, `Find`, and the handler's methods -/

theorem RecordFuncs.get_set_self (m : RecordFuncs) (em : Metric) (f : Option recordFunc) :
    RecordFuncs.get (RecordFuncs.set m em f) em = some f := by
  simp [RecordFuncs.set, RecordFuncs.get]

theorem findFrom_hasValue_false (k : String) (ls : List Label)
    (h : ∀ l ∈ ls, l.Name = k → l.HasValue = false) : (findFrom k ls).HasValue = false := by
  induction ls with
  | nil => rfl
  | cons l ls ih =>
    unfold findFrom
    by_cases hn : l.Name = k
    · rw [if_pos hn]
      exact h l (List.mem_cons_self _ _) hn
    · rw [if_neg hn]
      exact ih (fun x hx => h x (List.mem_cons_of_mem _ hx))

theorem Find_hasValue_false (e : Event) (k : String)
    (h : ∀ l ∈ e.Labels, l.Name = k → l.HasValue = false) : (e.Find k).HasValue = false := by
  unfold Event.Find
  exact findFrom_hasValue_false k _ h

theorem lookupFrom_found (k : String) (ls : List Label) (l : Label)
    (h : lookupFrom k ls = (l, true)) : l ∈ ls ∧ l.Name = k := by
  induction ls with
  | nil => simp [lookupFrom] at h
  | cons x xs ih =>
    unfold lookupFrom at h
    by_cases hn : x.Name = k
    · rw [if_pos hn] at h
      have hx : x = l := by simpa using h
      subst hx
      exact ⟨List.mem_cons_self _ _, hn⟩
    · rw [if_neg hn] at h
      exact ⟨List.mem_cons_of_mem _ (ih h).1, (ih h).2⟩

theorem lookupFrom_exists (k : String) (ls : List Label) (h : ∃ l ∈ ls, l.Name = k) :
    (lookupFrom k ls).2 = true := by
  induction ls with
  | nil => simp at h
  | cons x xs ih =>
    unfold lookupFrom
    by_cases hn : x.Name = k
    · rw [if_pos hn]
    · rw [if_neg hn]
      obtain ⟨l, hl, hk⟩ := h
      rcases List.mem_cons.mp hl with hx | hx
      · exact absurd (hx ▸ hk) hn
      · exact ih ⟨l, hx, hk⟩

theorem interfaceKeyFind_of_all (e : Event) (k : String) (v : Value)
    (hex : ∃ l ∈ e.Labels, l.Name = k)
    (hall : ∀ l ∈ e.Labels, l.Name = k → l.value = v) :
    interfaceKeyFind k e = (v, true) := by
  have h1 : (lookupFrom k e.Labels.reverse).2 = true :=
    lookupFrom_exists k _ (by
      obtain ⟨l, hl, hk⟩ := hex
      exact ⟨l, List.mem_reverse.mpr hl, hk⟩)
  cases hr : lookupFrom k e.Labels.reverse with
  | mk l b =>
    rw [hr] at h1
    simp only at h1
    subst h1
    have h2 := lookupFrom_found k _ l hr
    have h3 := hall l (List.mem_reverse.mp h2.1) h2.2
    simp [interfaceKeyFind, lookupValue, hr, Label.Interface, h3]

theorem instrumentKind_eq_none (t : MetricType) (h : t.instrumentKind = Option.none) :
    t.supported = false := by
  cases t <;> simp [MetricType.instrumentKind] at h <;> rfl

theorem instrumentKind_of_unsupported (t : MetricType) (h : t.supported = false) :
    t.instrumentKind = Option.none := by
  cases t <;> simp [MetricType.supported] at h <;> rfl

theorem newRecordFunc_of_kind (m : MetricHandler) (em : Metric) (k : InstrumentKind)
    (hk : em.dynType.instrumentKind = some k) :
    m.newRecordFunc em =
      match m.meter.newInstrument
          ⟨k, em.Options.Namespace ++ "_" ++ em.Name, em.Options.Description, em.Options.Unit⟩ with
      | .error err => (m, .panic (.meterError err))
      | .ok (c, mt) =>
        ({ m with meter := mt },
          .ok (some (k.closure c))) := by
  obtain ⟨ptr, dt, name, opts⟩ := em
  cases dt <;> simp [MetricType.instrumentKind] at hk <;> subst hk <;>
    simp only [MetricHandler.newRecordFunc, Meter.Int64Counter, Meter.Float64UpDownCounter,
      Meter.Int64Histogram, Metric.Options, Metric.Name] <;>
    split <;> simp_all [InstrumentKind.closure]

theorem newRecordFunc_unsupported (m : MetricHandler) (em : Metric)
    (hk : em.dynType.supported = false) : m.newRecordFunc em = (m, .ok Option.none) := by
  obtain ⟨ptr, dt, name, opts⟩ := em
  cases dt <;> simp [MetricType.supported] at hk <;> rfl

theorem getRecordFunc_cached (m : MetricHandler) (em : Metric) (f : Option recordFunc)
    (h : m.recordFuncs.get em = some f) : m.getRecordFunc em = (m, .ok f) := by
  unfold MetricHandler.getRecordFunc
  rw [h]

theorem getRecordFunc_accepted (m : MetricHandler) (em : Metric) (k : InstrumentKind)
    (h : m.recordFuncs.get em = Option.none) (hk : em.dynType.instrumentKind = some k)
    (hacc : m.meter.reject m.meter.instruments
      ⟨k, em.Options.Namespace ++ "_" ++ em.Name, em.Options.Description, em.Options.Unit⟩
        = Option.none) :
    m.getRecordFunc em =
      ({ meter := { m.meter with instruments := m.meter.instruments ++
            [⟨k, em.Options.Namespace ++ "_" ++ em.Name, em.Options.Description,
              em.Options.Unit⟩] },
         recordFuncs := m.recordFuncs.set em (some (k.closure m.meter.instruments.length)) },
        .ok (some (k.closure m.meter.instruments.length))) := by
  unfold MetricHandler.getRecordFunc
  rw [h, newRecordFunc_of_kind m em k hk]
  simp [Meter.newInstrument, hacc]

theorem getRecordFunc_rejected (m : MetricHandler) (em : Metric) (k : InstrumentKind)
    (err : String)
    (h : m.recordFuncs.get em = Option.none) (hk : em.dynType.instrumentKind = some k)
    (hrej : m.meter.reject m.meter.instruments
      ⟨k, em.Options.Namespace ++ "_" ++ em.Name, em.Options.Description, em.Options.Unit⟩
        = some err) :
    m.getRecordFunc em = (m, .panic (.meterError err)) := by
  unfold MetricHandler.getRecordFunc
  rw [h, newRecordFunc_of_kind m em k hk]
  simp [Meter.newInstrument, hrej]

theorem getRecordFunc_unsupported (m : MetricHandler) (em : Metric)
    (h : m.recordFuncs.get em = Option.none) (hk : em.dynType.supported = false) :
    m.getRecordFunc em =
      ({ m with recordFuncs := m.recordFuncs.set em Option.none }, .ok Option.none) := by
  unfold MetricHandler.getRecordFunc
  rw [h, newRecordFunc_unsupported m em hk]

theorem Event_of_metric (m : MetricHandler) (ctx : Context) (e : Event) (em : Metric)
    (hkind : e.Kind = MetricKind) (hkey : interfaceKeyFind MetricKey e = (.metric em, true))
    (hval : (e.Find MetricVal).HasValue = true) :
    m.Event ctx e =
      match m.getRecordFunc em with
      | (m1, .panic p) => (m1, .panic p)
      | (m1, .ok Option.none) => (m1, .panic (.unableToRecord em))
      | (m1, .ok (some rf)) =>
        match rf.call m1.meter ctx (e.Find MetricVal) e.Labels with
        | (mt, .panic p) => ({ m1 with meter := mt }, .panic p)
        | (mt, .ok _) => ({ m1 with meter := mt }, .ok ctx) := by
  simp [MetricHandler.Event, hkind, hkey, hval]

theorem Event_of_metric_without_value (m : MetricHandler) (ctx : Context) (e : Event)
    (em : Metric) (hkind : e.Kind = MetricKind)
    (hkey : interfaceKeyFind MetricKey e = (.metric em, true))
    (hval : (e.Find MetricVal).HasValue = false) :
    m.Event ctx e = (m, .panic .noMetricValue) := by
  simp [MetricHandler.Event, hkind, hkey, hval]

/-- C5: `labelToAttribute` returns the attribute of the label's own name holding
the label's value, of type STRING, INT64, FLOAT64 or BOOL when the label holds a
string, an int64, a float64 or a bool, and panics for a label holding anything
else (uint64, duration, bytes, an interface value, or no value); so whenever it
returns, the attribute has the label's name. -/
theorem labelToAttribute_cases (l : Label) :
    (labelToAttribute l =
      match l.value with
      | .string s => .ok ⟨l.Name, .STRING s⟩
      | .int64 i => .ok ⟨l.Name, .INT64 i⟩
      | .float64 f => .ok ⟨l.Name, .FLOAT64 f⟩
      | .bool b => .ok ⟨l.Name, .BOOL b⟩
      | _ => .panic (.cannotConvert l)) ∧
    (∀ a, labelToAttribute l = .ok a → a.Key = l.Name) := by
  obtain ⟨n, v⟩ := l
  cases v <;>
    simp [labelToAttribute, Label.IsString, Label.IsInt64, Label.IsFloat64, Label.IsBool,
      Label.String, Label.Int64, Label.Float64, Label.Bool, attributeString, attributeInt64,
      attributeFloat64, attributeBool]

/-- C2: `labelsToAttributes` drops exactly the labels named `event.MetricKey` or
`event.MetricVal` and converts each remaining label by `labelToAttribute`, in
the original order, adding nothing: when it returns, the keys of the attributes
are the names of the remaining labels, one for one; on the labels (metric
value, metric key, a: "x", b: 5) it returns exactly the attributes
(a: "x", b: 5). -/
theorem labelsToAttributes_refines_spec (ls : List Label) :
    labelsToAttributes ls =
        convertEach
          (ls.filter (fun l => !(decide (l.Name = MetricKey) || decide (l.Name = MetricVal)))) ∧
      (∀ attrs, labelsToAttributes ls = .ok attrs →
        attrs.map KeyValue.Key =
          (ls.filter (fun l => !(decide (l.Name = MetricKey) || decide (l.Name = MetricVal)))).map
            Label.Name) ∧
      labelsToAttributes exampleLabels = .ok [⟨"a", .STRING "x"⟩, ⟨"b", .INT64 5⟩] := by
  have h1 : labelsToAttributes ls =
      convertEach
        (ls.filter (fun l => !(decide (l.Name = MetricKey) || decide (l.Name = MetricVal)))) := by
    rw [labelsToAttributes_eq_spec]
    rfl
  refine ⟨h1, ?_, by decide⟩
  intro attrs h
  rw [h1] at h
  exact convertEach_keys _ attrs h

/-- C8: an event whose kind is not `MetricKind` is ignored: `Event` returns the
context it was given, does not panic, and leaves the handler (the map and the
meter, so the instruments and the measurements) as it was, whatever the labels. -/
theorem Event_ignores_other_kinds (m : MetricHandler) (ctx : Context) (e : Event)
    (h : e.Kind ≠ MetricKind) : m.Event ctx e = (m, .ok ctx) := by
  unfold MetricHandler.Event
  rw [if_pos h]

theorem Event_ignores_other_kinds_witness :
    (⟨LogKind, [⟨"a", .uint64 7⟩]⟩ : Event).Kind ≠ MetricKind ∧
      (NewMetricHandler (Meter.fresh acceptAll)).Event ⟨0⟩ ⟨LogKind, [⟨"a", .uint64 7⟩]⟩ =
        (NewMetricHandler (Meter.fresh acceptAll), .ok ⟨0⟩) :=
  ⟨by decide, Event_ignores_other_kinds _ _ _ (by decide)⟩

/-! ### The sampler goroutine -/

theorem samplerLoop_records (ticks : Nat) (count : Int) :
    (samplerLoop count ticks).records =
      List.replicate (min ticks (4 - count).toNat) 1023 := by
  induction ticks generalizing count with
  | zero => unfold samplerLoop; split <;> simp
  | succ t ih =>
    unfold samplerLoop
    by_cases hc : count > 3
    · have : (4 - count).toNat = 0 := by omega
      simp [hc, this]
    · have h1 : (4 - count).toNat = (4 - (count + 1)).toNat + 1 := by omega
      simp only [hc, if_false, ih, h1]
      rw [Nat.succ_min_succ, List.replicate_succ]

theorem samplerLoop_exited (ticks : Nat) (count : Int) :
    (samplerLoop count ticks).exited = true ↔ (4 - count).toNat ≤ ticks := by
  induction ticks generalizing count with
  | zero =>
    unfold samplerLoop
    by_cases hc : count > 3
    · simp [hc]; omega
    · simp [hc]; omega
  | succ t ih =>
    unfold samplerLoop
    by_cases hc : count > 3
    · simp [hc]; omega
    · simp only [hc, if_false, ih]; omega

/-- C7: the sampler goroutine tests `count > 3` with `count` starting at zero, so
it calls `c.Record` once per tick for the first four ticks, not three: given
`ticks` ticks it has made `min ticks 4` calls, each of value 1023, and it has
returned exactly when four ticks were delivered.  With three ticks it has made
three calls and is still waiting; with four ticks or more it has made four. -/
theorem sampler_records_four (ticks : Nat) :
    (sampler ticks).records = List.replicate (min ticks 4) 1023 ∧
      ((sampler ticks).exited = true ↔ 4 ≤ ticks) ∧
      sampler 3 = ⟨[1023, 1023, 1023], false⟩ ∧
      sampler 4 = ⟨[1023, 1023, 1023, 1023], true⟩ ∧
      sampler 5 = ⟨[1023, 1023, 1023, 1023], true⟩ := by
  refine ⟨?_, ?_, by decide, by decide, by decide⟩
  · simpa [sampler] using samplerLoop_records ticks 0
  · simpa [sampler] using samplerLoop_exited ticks 0

/-! ### The instrument created by `newRecordFunc` -/

/-- C10: for a metric of a supported type (counter, float gauge, duration
distribution) on a meter that accepts the request, the one instrument
`newRecordFunc` creates is named `Namespace ++ "_" ++ Name` and carries the
metric's description and unit unchanged; that name contains the underscore and
differs from the bare metric name; with the empty namespace it is
`"_" ++ Name`. -/
theorem newRecordFunc_instrument_name (m : MetricHandler) (em : Metric) (k : InstrumentKind)
    (hk : em.dynType.instrumentKind = some k)
    (hacc : m.meter.reject m.meter.instruments
      ⟨k, em.Options.Namespace ++ "_" ++ em.Name, em.Options.Description, em.Options.Unit⟩
        = Option.none) :
    (m.newRecordFunc em).1.meter.instruments =
        m.meter.instruments ++
          [⟨k, em.Options.Namespace ++ "_" ++ em.Name, em.Options.Description, em.Options.Unit⟩] ∧
      (m.newRecordFunc em).2.returns = true ∧
      '_' ∈ (em.Options.Namespace ++ "_" ++ em.Name).data ∧
      em.Options.Namespace ++ "_" ++ em.Name ≠ em.Name ∧
      (em.Options.Namespace = "" → em.Options.Namespace ++ "_" ++ em.Name = "_" ++ em.Name) := by
  refine ⟨?_, ?_, ?_, ?_, ?_⟩
  · rw [newRecordFunc_of_kind m em k hk]
    simp [Meter.newInstrument, hacc]
  · rw [newRecordFunc_of_kind m em k hk]
    simp [Meter.newInstrument, hacc, Outcome.returns]
  · simp [String.data_append]
  · intro h
    have h2 := congrArg String.length h
    simp only [String.length_append] at h2
    have h3 : "_".length = 1 := by decide
    omega
  · intro h
    rw [h]
    simp

theorem newRecordFunc_instrument_name_witness :
    ((NewMetricHandler (Meter.fresh acceptAll)).newRecordFunc bareCounter).1.meter.instruments =
        [] ++ [⟨.Int64Counter, "_hits", "Earth meteorite hits", ""⟩] ∧
      ((NewMetricHandler (Meter.fresh acceptAll)).newRecordFunc hitsCounter).1.meter.instruments =
        [] ++ [⟨.Int64Counter, "app_hits", "Earth meteorite hits", ""⟩] :=
  ⟨(newRecordFunc_instrument_name (NewMetricHandler (Meter.fresh acceptAll)) bareCounter
      .Int64Counter rfl rfl).1,
    (newRecordFunc_instrument_name (NewMetricHandler (Meter.fresh acceptAll)) hitsCounter
      .Int64Counter rfl rfl).1⟩

/-! ### The registry: `getRecordFunc` -/

/-- C1: for every handler state and every metric, either the first
`getRecordFunc(em)` returns a record function `f` in a state where `em` is
cached as `f`, and the second call returns the same `f` from the cache and
leaves the whole handler (the map and the meter, so no instrument is created)
as the first call left it; or the first call does not return at all, which
happens only when `em` was not cached and the meter returned an error for the
instrument (the panic of `newRecordFunc`), the handler being left untouched. -/
theorem getRecordFunc_twice_same (m : MetricHandler) (em : Metric) :
    (∃ m1 f, m.getRecordFunc em = (m1, .ok f) ∧ m1.recordFuncs.get em = some f ∧
        m1.getRecordFunc em = (m1, .ok f)) ∨
      (∃ err k, m.getRecordFunc em = (m, .panic (.meterError err)) ∧
        m.recordFuncs.get em = Option.none ∧ em.dynType.instrumentKind = some k ∧
        m.meter.reject m.meter.instruments
          ⟨k, em.Options.Namespace ++ "_" ++ em.Name, em.Options.Description, em.Options.Unit⟩
            = some err) := by
  cases hget : m.recordFuncs.get em with
  | some f =>
    exact Or.inl ⟨m, f, getRecordFunc_cached m em f hget, hget, getRecordFunc_cached m em f hget⟩
  | none =>
    cases hk : em.dynType.instrumentKind with
    | none =>
      have hs := instrumentKind_eq_none _ hk
      refine Or.inl ⟨_, _, getRecordFunc_unsupported m em hget hs, ?_, ?_⟩
      · exact RecordFuncs.get_set_self _ _ _
      · exact getRecordFunc_cached _ em _ (RecordFuncs.get_set_self _ _ _)
    | some k =>
      cases hr : m.meter.reject m.meter.instruments
          ⟨k, em.Options.Namespace ++ "_" ++ em.Name, em.Options.Description,
            em.Options.Unit⟩ with
      | some err =>
        exact Or.inr ⟨err, k, getRecordFunc_rejected m em k err hget hk hr, rfl, rfl, hr⟩
      | none =>
        refine Or.inl ⟨_, _, getRecordFunc_accepted m em k hget hk hr, ?_, ?_⟩
        · exact RecordFuncs.get_set_self _ _ _
        · exact getRecordFunc_cached _ em _ (RecordFuncs.get_set_self _ _ _)

/-- C3 as stated fails: on a meter that returns no error, after a counter event
of the counter `app_hits`, a gauge event of a float gauge of the same namespace
and name is handled without a panic; both instruments exist on the meter under
the one name `app_hits`, with different kinds, and both measurements are made. -/
theorem kind_mismatch_not_signalled :
    (handleAll (NewMetricHandler (Meter.fresh acceptAll)) ⟨0⟩
        [counterEvent hitsCounter 1 [], gaugeEvent hitsGauge ⟨7⟩ []]).2 = .ok ⟨0⟩ ∧
      (handleAll (NewMetricHandler (Meter.fresh acceptAll)) ⟨0⟩
        [counterEvent hitsCounter 1 [], gaugeEvent hitsGauge ⟨7⟩ []]).1.meter.instruments =
        [⟨.Int64Counter, "app_hits", "Earth meteorite hits", ""⟩,
         ⟨.Float64UpDownCounter, "app_hits", "Earth meteorite hits", ""⟩] ∧
      (handleAll (NewMetricHandler (Meter.fresh acceptAll)) ⟨0⟩
        [counterEvent hitsCounter 1 [], gaugeEvent hitsGauge ⟨7⟩ []]).1.recordFuncs =
        [(hitsGauge, some (.gaugeAdd 1)), (hitsCounter, some (.counterAdd 0))] ∧
      (handleAll (NewMetricHandler (Meter.fresh acceptAll)) ⟨0⟩
        [counterEvent hitsCounter 1 [], gaugeEvent hitsGauge ⟨7⟩ []]).1.meter.measurements =
        [⟨0, .int 1, []⟩, ⟨1, .float ⟨7⟩, []⟩] :=
  ⟨by decide, by decide, by decide, by decide⟩

/-- C3 amended: the handler makes no kind check of its own.  For a metric that is
not yet in `recordFuncs` and whose type is supported, `getRecordFunc` asks the
meter for an instrument named `Namespace ++ "_" ++ Name`; it panics with the
meter's error exactly when the meter returns one, leaving the handler as it
was, and otherwise creates the instrument, caches and returns a non-nil record
function bound to it, whatever instruments the meter already holds. -/
theorem getRecordFunc_error_is_meter_error (m : MetricHandler) (em : Metric)
    (k : InstrumentKind) (h : m.recordFuncs.get em = Option.none)
    (hk : em.dynType.instrumentKind = some k) :
    m.getRecordFunc em =
      match m.meter.reject m.meter.instruments
          ⟨k, em.Options.Namespace ++ "_" ++ em.Name, em.Options.Description,
            em.Options.Unit⟩ with
      | some err => (m, .panic (.meterError err))
      | Option.none =>
        ({ meter := { m.meter with instruments := m.meter.instruments ++
              [⟨k, em.Options.Namespace ++ "_" ++ em.Name, em.Options.Description,
                em.Options.Unit⟩] },
           recordFuncs := m.recordFuncs.set em (some (k.closure m.meter.instruments.length)) },
          .ok (some (k.closure m.meter.instruments.length))) := by
  cases hr : m.meter.reject m.meter.instruments
      ⟨k, em.Options.Namespace ++ "_" ++ em.Name, em.Options.Description,
        em.Options.Unit⟩ with
  | some err => exact getRecordFunc_rejected m em k err h hk hr
  | none => exact getRecordFunc_accepted m em k h hk hr

theorem getRecordFunc_error_is_meter_error_witness :
    ((NewMetricHandler (Meter.fresh acceptAll)).getRecordFunc hitsCounter).1.getRecordFunc
        hitsGauge =
      ({ meter := ⟨acceptAll,
            [⟨.Int64Counter, "app_hits", "Earth meteorite hits", ""⟩] ++
              [⟨.Float64UpDownCounter, "app_hits", "Earth meteorite hits", ""⟩], []⟩,
         recordFuncs := RecordFuncs.set [(hitsCounter, some (.counterAdd 0))] hitsGauge
            (some (.gaugeAdd 1)) },
        .ok (some (.gaugeAdd 1))) :=
  getRecordFunc_error_is_meter_error
    ((NewMetricHandler (Meter.fresh acceptAll)).getRecordFunc hitsCounter).1 hitsGauge
    .Float64UpDownCounter (by decide) rfl

/-! ### Events without a metric key or a metric value -/

/-- C4: an event of kind `MetricKind` none of whose labels is a metric key with a
value, or none of whose labels is a metric value with a value, makes `Event`
panic (with "no metric key", "no metric value", or the failed type assertion of
the value found for the key), and the handler at the panic is the handler
before the call: the map and the meter are unchanged, no instrument is created
and nothing is measured. -/
theorem Event_panics_without_key_or_value (m : MetricHandler) (ctx : Context) (e : Event)
    (hkind : e.Kind = MetricKind)
    (h : (∀ l ∈ e.Labels, l.Name = MetricKey → l.HasValue = false) ∨
      (∀ l ∈ e.Labels, l.Name = MetricVal → l.HasValue = false)) :
    (m.Event ctx e).1 = m ∧
      ((m.Event ctx e).2 = .panic .noMetricKey ∨
        (m.Event ctx e).2 = .panic .noMetricValue ∨
        (m.Event ctx e).2 = .panic (.typeAssertion (interfaceKeyFind MetricKey e).1)) := by
  cases hr : lookupFrom MetricKey e.Labels.reverse with
  | mk l b =>
    cases b with
    | false =>
      have he : m.Event ctx e = (m, .panic .noMetricKey) := by
        simp [MetricHandler.Event, hkind, interfaceKeyFind, lookupValue, hr]
      rw [he]
      exact ⟨rfl, Or.inl rfl⟩
    | true =>
      have hk : interfaceKeyFind MetricKey e = (l.value, true) := by
        simp [interfaceKeyFind, lookupValue, hr, Label.Interface]
      have hmem := lookupFrom_found MetricKey _ l hr
      cases hv : l.value
      case metric em =>
        have hval : (e.Find MetricVal).HasValue = false := by
          rcases h with h | h
          · have := h l (List.mem_reverse.mp hmem.1) hmem.2
            simp [Label.HasValue, hv] at this
          · exact Find_hasValue_false e MetricVal h
        rw [Event_of_metric_without_value m ctx e em hkind (by rw [hk, hv]) hval]
        exact ⟨rfl, Or.inr (Or.inl rfl)⟩
      all_goals
        rw [hk]
        have he : m.Event ctx e = (m, .panic (.typeAssertion l.value)) := by
          simp [MetricHandler.Event, hkind, hk, hv]
        rw [he]
        exact ⟨rfl, Or.inr (Or.inr rfl)⟩

theorem Event_panics_without_key_or_value_witness :
    ((NewMetricHandler (Meter.fresh acceptAll)).Event ⟨0⟩
        ⟨MetricKind, [⟨MetricKey, .metric hitsCounter⟩, ⟨"a", .string "x"⟩]⟩).2 =
          .panic .noMetricValue ∧
      ((NewMetricHandler (Meter.fresh acceptAll)).Event ⟨0⟩
        ⟨MetricKind, [⟨MetricKey, .metric hitsCounter⟩, ⟨"a", .string "x"⟩]⟩).1 =
          NewMetricHandler (Meter.fresh acceptAll) ∧
      ((NewMetricHandler (Meter.fresh acceptAll)).Event ⟨0⟩
        ⟨MetricKind, [⟨"a", .string "x"⟩, ⟨MetricVal, .int64 1⟩]⟩).2 = .panic .noMetricKey :=
  ⟨by decide,
    (Event_panics_without_key_or_value (NewMetricHandler (Meter.fresh acceptAll)) ⟨0⟩
      ⟨MetricKind, [⟨MetricKey, .metric hitsCounter⟩, ⟨"a", .string "x"⟩]⟩ rfl
      (Or.inr (by decide))).1,
    by decide⟩

/-! ### Routing by metric type -/

/-- C9: `newRecordFunc` routes a metric by its type.  On a meter that accepts the
request, a counter gets an `Int64Counter`, a float gauge a
`Float64UpDownCounter`, a duration distribution an `Int64Histogram`, and the
record function returned is bound to that new instrument; called on a value
label it measures the label's int64, float64, or duration in nanoseconds, with
the converted attributes.  For a metric of any other type no instrument is
created and nil is returned, and `Event` panics for every metric event whose
metric-key labels hold such a metric, both when the metric is not yet in the
map and when its nil entry is already there; the meter is untouched and the
entry stays nil (when the event has a metric value, the first label named
`event.MetricVal`, the panic is "unable to record" and the nil entry is in the
map afterwards). -/
theorem newRecordFunc_routes_by_type (m : MetricHandler) (em : Metric) :
    (em.dynType = .Counter →
      m.meter.reject m.meter.instruments ⟨.Int64Counter, em.Options.Namespace ++ "_" ++ em.Name,
        em.Options.Description, em.Options.Unit⟩ = Option.none →
      m.newRecordFunc em =
        ({ m with meter := { m.meter with instruments := m.meter.instruments ++
            [⟨.Int64Counter, em.Options.Namespace ++ "_" ++ em.Name, em.Options.Description,
              em.Options.Unit⟩] } },
          .ok (some (.counterAdd m.meter.instruments.length)))) ∧
    (em.dynType = .FloatGauge →
      m.meter.reject m.meter.instruments ⟨.Float64UpDownCounter,
        em.Options.Namespace ++ "_" ++ em.Name, em.Options.Description, em.Options.Unit⟩
          = Option.none →
      m.newRecordFunc em =
        ({ m with meter := { m.meter with instruments := m.meter.instruments ++
            [⟨.Float64UpDownCounter, em.Options.Namespace ++ "_" ++ em.Name,
              em.Options.Description, em.Options.Unit⟩] } },
          .ok (some (.gaugeAdd m.meter.instruments.length)))) ∧
    (em.dynType = .DurationDistribution →
      m.meter.reject m.meter.instruments ⟨.Int64Histogram,
        em.Options.Namespace ++ "_" ++ em.Name, em.Options.Description, em.Options.Unit⟩
          = Option.none →
      m.newRecordFunc em =
        ({ m with meter := { m.meter with instruments := m.meter.instruments ++
            [⟨.Int64Histogram, em.Options.Namespace ++ "_" ++ em.Name,
              em.Options.Description, em.Options.Unit⟩] } },
          .ok (some (.histogramRecord m.meter.instruments.length)))) ∧
    (∀ (c : Nat) (mt : Meter) (ctx : Context) (l : Label) (attrs : List Label) (v : Int)
        (as : List KeyValue), l.value = .int64 v → labelsToAttributes attrs = .ok as →
      (recordFunc.counterAdd c).call mt ctx l attrs =
        ({ mt with measurements := mt.measurements ++ [⟨c, .int v, as⟩] }, .ok ())) ∧
    (∀ (g : Nat) (mt : Meter) (ctx : Context) (l : Label) (attrs : List Label) (v : Float64)
        (as : List KeyValue), l.value = .float64 v → labelsToAttributes attrs = .ok as →
      (recordFunc.gaugeAdd g).call mt ctx l attrs =
        ({ mt with measurements := mt.measurements ++ [⟨g, .float v, as⟩] }, .ok ())) ∧
    (∀ (r : Nat) (mt : Meter) (ctx : Context) (l : Label) (attrs : List Label) (d : Int)
        (as : List KeyValue), l.value = .duration d → labelsToAttributes attrs = .ok as →
      (recordFunc.histogramRecord r).call mt ctx l attrs =
        ({ mt with measurements := mt.measurements ++ [⟨r, .int d, as⟩] }, .ok ())) ∧
    (em.dynType.supported = false →
      m.newRecordFunc em = (m, .ok Option.none) ∧
      ∀ (ctx : Context) (e : Event), e.Kind = MetricKind →
        (∃ l ∈ e.Labels, l.Name = MetricKey) →
        (∀ l ∈ e.Labels, l.Name = MetricKey → l.value = .metric em) →
        (m.recordFuncs.get em = Option.none ∨ m.recordFuncs.get em = some Option.none) →
        (m.Event ctx e).2.returns = false ∧
          (m.Event ctx e).1.meter = m.meter ∧
          ((m.Event ctx e).1.recordFuncs.get em = Option.none ∨
            (m.Event ctx e).1.recordFuncs.get em = some Option.none) ∧
          ((e.Find MetricVal).HasValue = true →
            (m.Event ctx e).2 = .panic (.unableToRecord em) ∧
              (m.Event ctx e).1.recordFuncs.get em = some Option.none)) := by
  refine ⟨?_, ?_, ?_, ?_, ?_, ?_, ?_⟩
  · intro ht hacc
    have hk : em.dynType.instrumentKind = some .Int64Counter := by rw [ht]; rfl
    rw [newRecordFunc_of_kind m em _ hk]
    simp [Meter.newInstrument, hacc, InstrumentKind.closure]
  · intro ht hacc
    have hk : em.dynType.instrumentKind = some .Float64UpDownCounter := by rw [ht]; rfl
    rw [newRecordFunc_of_kind m em _ hk]
    simp [Meter.newInstrument, hacc, InstrumentKind.closure]
  · intro ht hacc
    have hk : em.dynType.instrumentKind = some .Int64Histogram := by rw [ht]; rfl
    rw [newRecordFunc_of_kind m em _ hk]
    simp [Meter.newInstrument, hacc, InstrumentKind.closure]
  · intro c mt ctx l attrs v as hl ha
    simp [recordFunc.call, Label.Int64, hl, ha, Meter.measure]
  · intro g mt ctx l attrs v as hl ha
    simp [recordFunc.call, Label.Float64, hl, ha, Meter.measure]
  · intro r mt ctx l attrs d as hl ha
    simp [recordFunc.call, Label.Duration, hl, ha, Meter.measure, Nanoseconds]
  · intro hs
    refine ⟨newRecordFunc_unsupported m em hs, ?_⟩
    intro ctx e hkind hex hall hget
    have hkey := interfaceKeyFind_of_all e MetricKey (.metric em) hex hall
    by_cases hval : (e.Find MetricVal).HasValue = true
    · rw [Event_of_metric m ctx e em hkind hkey hval]
      rcases hget with hget | hget
      · rw [getRecordFunc_unsupported m em hget hs]
        simp [Outcome.returns, RecordFuncs.get_set_self]
      · rw [getRecordFunc_cached m em _ hget]
        simp [Outcome.returns, hget]
    · have hval2 : (e.Find MetricVal).HasValue = false := by simpa using hval
      rw [Event_of_metric_without_value m ctx e em hkind hkey hval2]
      simp [Outcome.returns, hval2, hget]

theorem newRecordFunc_routes_by_type_witness :
    (NewMetricHandler (Meter.fresh acceptAll)).newRecordFunc hitsGauge =
        ({ meter := ⟨acceptAll, [] ++ [⟨.Float64UpDownCounter, "app_hits",
              "Earth meteorite hits", ""⟩], []⟩,
           recordFuncs := [] },
          .ok (some (.gaugeAdd 0))) ∧
      ((NewMetricHandler (Meter.fresh acceptAll)).Event ⟨0⟩
          (counterEvent hitsDistribution 1 [])).2 = .panic (.unableToRecord hitsDistribution) ∧
      (((NewMetricHandler (Meter.fresh acceptAll)).Event ⟨0⟩
          (counterEvent hitsDistribution 1 [])).1.Event ⟨0⟩
            (counterEvent hitsDistribution 1 [])).2 = .panic (.unableToRecord hitsDistribution) :=
  ⟨(newRecordFunc_routes_by_type (NewMetricHandler (Meter.fresh acceptAll)) hitsGauge).2.1
      rfl rfl,
    (((newRecordFunc_routes_by_type (NewMetricHandler (Meter.fresh acceptAll))
      hitsDistribution).2.2.2.2.2.2 rfl).2 ⟨0⟩ (counterEvent hitsDistribution 1 []) rfl
        (by decide) (by decide) (Or.inl rfl)).2.2.2 (by decide) |>.1,
    (((newRecordFunc_routes_by_type
      ((NewMetricHandler (Meter.fresh acceptAll)).Event ⟨0⟩
          (counterEvent hitsDistribution 1 [])).1
      hitsDistribution).2.2.2.2.2.2 rfl).2 ⟨0⟩ (counterEvent hitsDistribution 1 []) rfl
        (by decide) (by decide) (Or.inr (by decide))).2.2.2 (by decide) |>.1⟩

/-! ### Counter events from the empty registry -/

end GoOtel
